import Mathlib

/-!
Verification development for the Bali Blinds client
(`custom_components/bali_blinds`): a shallow embedding in Lean 4 of the
API client (`api.py`) and the command-reconciliation coordinator
(`coordinator.py`), with theorems about validation, error wrapping, the
pending-command state machine, the RPC correlation table, the receive
loop, connection retry with backoff, and the four-step authentication
handshake.
-/

namespace BaliBlinds

/-! ## Device items and `set_device_position` (api.py 774–805) -/

/-- A hub item (one device property) as returned by `hub.items.list`:
its owning device id, its `name` (`"dimmer"`, `"battery"`, …), its own
`_id`, and its current value. -/
structure Item where
  deviceId : String
  name : String
  itemId : String
  value : Int
deriving DecidableEq, Repr

/-- A remote hub call that a `set_device_position` run can issue over the
WebSocket (connection management, which precedes it, is modelled
separately by `ensure_websocket_connected`). -/
inductive HubCall where
  | itemsList : HubCall
  | itemValueSet (itemId : String) (value : Int) : HubCall
deriving DecidableEq, Repr

/-- Outcome of `BaliAPI.set_device_position`: success, the Python
`ValueError` for an out-of-range position, or `BaliConnectionError`. -/
inductive SetPosResult where
  | ok : SetPosResult
  | validationError : SetPosResult
  | connectionError (msg : String) : SetPosResult
deriving DecidableEq, Repr

/-- Whether a hub call is a `hub.item.value.set` call. -/
def HubCall.isValueSet : HubCall → Bool
  | HubCall.itemValueSet _ _ => true
  | _ => false

/-- The loop `for item in items: if item.get("deviceId") == device_id and
item.get("name") == "dimmer": dimmer_id = item.get("_id"); break`:
the first item of the list belonging to the device and named `dimmer`. -/
def findDimmer (items : List Item) (deviceId : String) : Option Item :=
  items.find? (fun it => it.deviceId == deviceId && it.name == "dimmer")

/-- Shallow embedding of `BaliAPI.set_device_position` (api.py 774–805),
after the `ensure_websocket_connected` step: the range check
`0 <= position <= 100` raises `ValueError` before any hub call; then the
items list is fetched, the first `dimmer` item of the device resolved, and
one `hub.item.value.set` issued for its `_id`.  `itemsResult` is the
environment's answer to the `hub.items.list` call and `setOk` tells
whether the `hub.item.value.set` send succeeds; every exception inside the
`try` block is rewrapped as `BaliConnectionError`.  Returns the outcome
together with the hub calls issued, in order. -/
def set_device_position (itemsResult : Except String (List Item)) (setOk : Bool)
    (deviceId : String) (position : Int) : SetPosResult × List HubCall :=
  if position < 0 ∨ 100 < position then
    (SetPosResult.validationError, [])
  else
    match itemsResult with
    | Except.error e =>
        (SetPosResult.connectionError ("Failed to set device position: " ++ e),
         [HubCall.itemsList])
    | Except.ok items =>
        match findDimmer items deviceId with
        | none =>
            (SetPosResult.connectionError
              ("Failed to set device position: No dimmer item found for device "
                ++ deviceId),
             [HubCall.itemsList])
        | some it =>
            if it.itemId == "" then
              (SetPosResult.connectionError
                ("Failed to set device position: No dimmer item found for device "
                  ++ deviceId),
               [HubCall.itemsList])
            else if setOk then
              (SetPosResult.ok,
               [HubCall.itemsList, HubCall.itemValueSet it.itemId position])
            else
              (SetPosResult.connectionError "Failed to set device position: send failed",
               [HubCall.itemsList, HubCall.itemValueSet it.itemId position])

/-- C1: out of range ⇒ ValidationError and no remote call; in range with a
resolvable dimmer id ⇒ exactly one value-set call, addressed to that id. -/
theorem setPosition_validation_and_single_set
    (itemsResult : Except String (List Item)) (setOk : Bool)
    (deviceId : String) (position : Int) :
    ((position < 0 ∨ 100 < position) →
      (set_device_position itemsResult setOk deviceId position).1
          = SetPosResult.validationError ∧
      (set_device_position itemsResult setOk deviceId position).2 = []) ∧
    (∀ items it, 0 ≤ position → position ≤ 100 →
      itemsResult = Except.ok items →
      findDimmer items deviceId = some it → it.itemId ≠ "" →
      ((set_device_position itemsResult setOk deviceId position).2.filter
          HubCall.isValueSet)
        = [HubCall.itemValueSet it.itemId position]) := by
  constructor
  · intro hout
    simp [set_device_position, hout]
  · intro items it h0 h1 hitems hfind hid
    subst hitems
    have hnot : ¬ (position < 0 ∨ 100 < position) := by
      push_neg
      exact ⟨h0, h1⟩
    have hid' : (it.itemId == "") = false := by
      simpa [beq_iff_eq] using hid
    cases hset : setOk <;>
      simp [set_device_position, hnot, hfind, hid', HubCall.isValueSet, hset]

/-- Witness for C1 at a concrete items list and position. -/
theorem setPosition_validation_and_single_set_witness :
    (set_device_position
        (Except.ok [⟨"dev1", "dimmer", "item7", 5⟩]) true "dev1" 40).2.filter
        HubCall.isValueSet
      = [HubCall.itemValueSet "item7" 40] :=
  (setPosition_validation_and_single_set
      (Except.ok [⟨"dev1", "dimmer", "item7", 5⟩]) true "dev1" 40).2
    [⟨"dev1", "dimmer", "item7", 5⟩] ⟨"dev1", "dimmer", "item7", 5⟩
    (by decide) (by decide) rfl (by decide) (by decide)

/-- C9: an in-range position whose device has no dimmer item ends in
`BaliConnectionError` (the internal `BaliAPIError` is rewrapped), with no
value-set call; a transport failure of the items fetch ends in
`BaliConnectionError` as well, so the two are indistinguishable by
exception kind. -/
theorem setPosition_missing_dimmer_is_connection_error
    (items : List Item) (setOk : Bool) (deviceId : String) (position : Int)
    (h0 : 0 ≤ position) (h1 : position ≤ 100)
    (hnone : findDimmer items deviceId = none) :
    (∃ msg, (set_device_position (Except.ok items) setOk deviceId position).1
        = SetPosResult.connectionError msg) ∧
    ((set_device_position (Except.ok items) setOk deviceId position).2.filter
        HubCall.isValueSet) = [] ∧
    (∀ e, ∃ msg, (set_device_position (Except.error e) setOk deviceId position).1
        = SetPosResult.connectionError msg) := by
  have hnot : ¬ (position < 0 ∨ 100 < position) := by
    push_neg
    exact ⟨h0, h1⟩
  refine ⟨⟨"Failed to set device position: No dimmer item found for device "
      ++ deviceId, ?_⟩, ?_, fun e => ⟨"Failed to set device position: " ++ e, ?_⟩⟩
  · simp [set_device_position, hnot, hnone]
  · simp [set_device_position, hnot, hnone, HubCall.isValueSet]
  · simp [set_device_position, hnot]

/-- Witness for C9: device `"dev2"` has no dimmer item in the list. -/
theorem setPosition_missing_dimmer_is_connection_error_witness :
    (∃ msg, (set_device_position
        (Except.ok [⟨"dev1", "dimmer", "item7", 5⟩]) true "dev2" 40).1
        = SetPosResult.connectionError msg) :=
  (setPosition_missing_dimmer_is_connection_error
      [⟨"dev1", "dimmer", "item7", 5⟩] true "dev2" 40
      (by decide) (by decide) (by decide)).1

/-! ## The coordinator's pending-command state machine (coordinator.py)

Python dicts keyed by device id are modelled as association lists with
the dict's lookup/assign/delete semantics; Home Assistant's
`async_call_later` is modelled as an explicit scheduler: each schedule
yields a fresh handle recorded in `scheduled`, the returned cancel
callback removes that handle, and a timeout can only fire while its
handle is still in `scheduled`. -/

/-- Dict lookup. -/
def alookup {β : Type} : List (String × β) → String → Option β
  | [], _ => none
  | (k, v) :: t, key => if k = key then some v else alookup t key

/-- Dict key deletion (`del d[k]`, a no-op here when the key is absent). -/
def aerase {β : Type} : List (String × β) → String → List (String × β)
  | [], _ => []
  | (k, v) :: t, key => if k = key then aerase t key else (k, v) :: aerase t key

/-- Dict assignment `d[k] = v`. -/
def ainsert {β : Type} (l : List (String × β)) (key : String) (v : β) :
    List (String × β) :=
  (key, v) :: aerase l key

theorem alookup_aerase {β : Type} (l : List (String × β)) (k k' : String) :
    alookup (aerase l k) k' = if k = k' then none else alookup l k' := by
  induction l with
  | nil => simp [aerase, alookup]
  | cons e t ih =>
      rcases e with ⟨a, b⟩
      by_cases h1 : a = k
      · subst h1
        by_cases h2 : a = k'
        · subst h2
          simp only [aerase, if_pos rfl]
          simpa using ih
        · simp [aerase, alookup, h2, ih]
      · by_cases h2 : a = k'
        · subst h2
          have hk : ¬ k = a := fun hh => h1 hh.symm
          simp [aerase, alookup, h1, hk]
        · simp [aerase, alookup, h1, h2, ih]

theorem alookup_ainsert {β : Type} (l : List (String × β)) (k k' : String) (v : β) :
    alookup (ainsert l k v) k' = if k = k' then some v else alookup l k' := by
  by_cases h : k = k' <;> simp [ainsert, alookup, h, alookup_aerase]

/-- The per-device data produced by `_async_update_data` that the push
handlers mutate: the semantic keys `position`, `battery`, `switch` of the
device's entry (`None` models an absent key). -/
structure DevData where
  position : Option Int
  battery : Option Int
  switch : Option Int
deriving DecidableEq, Repr

/-- One live `async_call_later` registration: its scheduler handle, the
device id bound into `_apply_pending_position_callback`, and the delay it
was scheduled with (always 30 in the source). -/
structure ScheduledTimeout where
  handle : Nat
  device : String
  delay : Nat
deriving DecidableEq, Repr

/-- The `BaliBlindCoordinator` state: `data` (device id → reported state),
`_pending_positions`, `_pending_timeouts` (device id → handle of its live
timeout), the scheduler's live registrations, a fresh-handle counter, and
a count of `async_set_updated_data` listener notifications. -/
structure CoordState where
  data : List (String × DevData)
  pendingPositions : List (String × Int)
  pendingTimeouts : List (String × Nat)
  scheduled : List ScheduledTimeout
  nextHandle : Nat
  notifyCount : Nat
deriving DecidableEq, Repr

/-- `async_set_updated_data`: notify the coordinator's listeners. -/
def notify (s : CoordState) : CoordState :=
  { s with notifyCount := s.notifyCount + 1 }

/-- `_clear_pending_position` (coordinator.py 51–58): drop the pending
position, call the stored cancel callback (remove the handle from the
scheduler) and drop the timeout entry. -/
def clear_pending_position (s : CoordState) (d : String) : CoordState :=
  match alookup s.pendingTimeouts d with
  | some h =>
      { s with
          pendingPositions := aerase s.pendingPositions d,
          scheduled := s.scheduled.filter (fun e => e.handle != h),
          pendingTimeouts := aerase s.pendingTimeouts d }
  | none => { s with pendingPositions := aerase s.pendingPositions d }

/-- `_handle_item_update` (coordinator.py 60–83): ignore devices absent
from `data`; apply a `dimmer`/`battery`/`switch` value to the reported
state, clearing the pending position on a real `dimmer` update; always
notify listeners at the end. -/
def handle_item_update (s : CoordState) (d itemName : String) (v : Int) :
    CoordState :=
  match alookup s.data d with
  | none => s
  | some dd =>
      if itemName = "dimmer" then
        if (alookup s.pendingPositions d).isSome then
          notify (clear_pending_position
            { s with data := ainsert s.data d { dd with position := some v } } d)
        else
          notify { s with data := ainsert s.data d { dd with position := some v } }
      else if itemName = "battery" then
        notify { s with data := ainsert s.data d { dd with battery := some v } }
      else if itemName = "switch" then
        notify { s with data := ainsert s.data d { dd with switch := some v } }
      else
        notify s

/-- `_handle_device_update` (coordinator.py 85–101): on `reachable is
False` for a device with a pending position, apply the commanded target
as authoritative (and notify, when the device is in `data`), then clear
the pending state. -/
def handle_device_update (s : CoordState) (d : String) (reachable : Option Bool) :
    CoordState :=
  if reachable = some false then
    match alookup s.pendingPositions d with
    | none => s
    | some p =>
        match alookup s.data d with
        | some dd =>
            clear_pending_position
              (notify { s with data := ainsert s.data d { dd with position := some p } }) d
        | none => clear_pending_position s d
  else s

/-- `_apply_pending_position_callback` (coordinator.py 132–152), the body
run when a scheduled timeout fires: a no-op unless the device still has a
pending position; otherwise apply the commanded target (and notify, when
the device is in `data`) and delete both pending entries. -/
def apply_pending_position_callback (s : CoordState) (d : String) : CoordState :=
  match alookup s.pendingPositions d with
  | none => s
  | some p =>
      match alookup s.data d with
      | some dd =>
          { s with
              data := ainsert s.data d { dd with position := some p },
              notifyCount := s.notifyCount + 1,
              pendingPositions := aerase s.pendingPositions d,
              pendingTimeouts := aerase s.pendingTimeouts d }
      | none =>
          { s with
              pendingPositions := aerase s.pendingPositions d,
              pendingTimeouts := aerase s.pendingTimeouts d }

/-- `set_target_position` (coordinator.py 154–171): cancel and drop any
existing timeout for the device, record the commanded position, and
schedule `_apply_pending_position_callback` after 30 seconds under a
fresh handle. -/
def set_target_position (s : CoordState) (d : String) (p : Int) : CoordState :=
  match alookup s.pendingTimeouts d with
  | some h =>
      { s with
          pendingPositions := ainsert s.pendingPositions d p,
          scheduled := s.scheduled.filter (fun e => e.handle != h)
            ++ [⟨s.nextHandle, d, 30⟩],
          pendingTimeouts := ainsert (aerase s.pendingTimeouts d) d s.nextHandle,
          nextHandle := s.nextHandle + 1 }
  | none =>
      { s with
          pendingPositions := ainsert s.pendingPositions d p,
          scheduled := s.scheduled ++ [⟨s.nextHandle, d, 30⟩],
          pendingTimeouts := ainsert s.pendingTimeouts d s.nextHandle,
          nextHandle := s.nextHandle + 1 }

/-- A scheduled timeout fires: only a handle still registered with the
scheduler can fire (cancellation removed it); the scheduler retires the
handle and runs the callback bound to the recorded device id. -/
def fire (s : CoordState) (h : Nat) : CoordState :=
  match s.scheduled.find? (fun e => e.handle == h) with
  | none => s
  | some e =>
      apply_pending_position_callback
        { s with scheduled := s.scheduled.filter (fun e' => e'.handle != h) } e.device

/-- The events the coordinator reacts to. -/
inductive CoordEvent where
  | command (d : String) (p : Int)
  | itemUpdate (d itemName : String) (v : Int)
  | deviceUpdate (d : String) (reachable : Option Bool)
  | timeout (h : Nat)

/-- One coordinator step. -/
def coordStep (s : CoordState) : CoordEvent → CoordState
  | CoordEvent.command d p => set_target_position s d p
  | CoordEvent.itemUpdate d n v => handle_item_update s d n v
  | CoordEvent.deviceUpdate d r => handle_device_update s d r
  | CoordEvent.timeout h => fire s h

/-- Number of live scheduled timeouts bound to device `d`. -/
def liveFor (s : CoordState) (d : String) : Nat :=
  (s.scheduled.filter (fun e => e.device == d)).length

/-- The device's reported position. -/
def posOf (s : CoordState) (d : String) : Option Int :=
  (alookup s.data d).bind DevData.position

/-- Every live scheduled timeout is the one recorded in
`_pending_timeouts` for its device. -/
def Linked (s : CoordState) : Prop :=
  ∀ e ∈ s.scheduled, alookup s.pendingTimeouts e.device = some e.handle

/-- No device has two live scheduled timeouts. -/
def DevicesNodup (s : CoordState) : Prop :=
  (s.scheduled.map ScheduledTimeout.device).Nodup

/-- The coordinator invariant. -/
def CoordInv (s : CoordState) : Prop :=
  Linked s ∧ DevicesNodup s

theorem linked_device_handle {s : CoordState} (hL : Linked s) {d : String} {h : Nat}
    (hpt : alookup s.pendingTimeouts d = some h) :
    ∀ e ∈ s.scheduled, e.device = d → e.handle = h := by
  intro e he hdev
  have := hL e he
  rw [hdev, hpt] at this
  exact (Option.some.injEq _ _ ▸ this.symm)

theorem linked_no_entry {s : CoordState} (hL : Linked s) {d : String}
    (hpt : alookup s.pendingTimeouts d = none) :
    ∀ e ∈ s.scheduled, e.device ≠ d := by
  intro e he hdev
  have := hL e he
  rw [hdev, hpt] at this
  exact Option.noConfusion this

theorem coordInv_transfer {s s' : CoordState}
    (h1 : s'.scheduled = s.scheduled) (h2 : s'.pendingTimeouts = s.pendingTimeouts)
    (h : CoordInv s) : CoordInv s' := by
  refine ⟨fun e he => ?_, ?_⟩
  · rw [h2]
    exact h.1 e (h1 ▸ he)
  · rw [DevicesNodup, h1]
    exact h.2

theorem coordInv_clear (s : CoordState) (d : String) (h : CoordInv s) :
    CoordInv (clear_pending_position s d) := by
  obtain ⟨hL, hN⟩ := h
  cases hpt : alookup s.pendingTimeouts d with
  | none =>
      simp only [clear_pending_position, hpt]
      exact ⟨hL, hN⟩
  | some h0 =>
      simp only [clear_pending_position, hpt]
      refine ⟨fun e he => ?_, ?_⟩
      · simp only [List.mem_filter] at he
        obtain ⟨he1, he2⟩ := he
        have hne : e.handle ≠ h0 := by simpa using he2
        have hdev : e.device ≠ d :=
          fun hdev => hne (linked_device_handle hL hpt e he1 hdev)
        rw [alookup_aerase, if_neg (fun hh => hdev hh.symm)]
        exact hL e he1
      · exact List.Nodup.sublist (List.Sublist.map _ (List.filter_sublist _)) hN

theorem coordInv_set_target (s : CoordState) (d : String) (p : Int)
    (h : CoordInv s) : CoordInv (set_target_position s d p) := by
  obtain ⟨hL, hN⟩ := h
  have main : ∀ sched1 : List ScheduledTimeout, ∀ pt1 : List (String × Nat),
      (∀ e ∈ sched1, e ∈ s.scheduled) →
      (∀ e ∈ sched1, e.device ≠ d) →
      (∀ k, k ≠ d → alookup pt1 k = alookup s.pendingTimeouts k) →
      (sched1.map ScheduledTimeout.device).Nodup →
      Linked ⟨s.data, ainsert s.pendingPositions d p, ainsert pt1 d s.nextHandle,
        sched1 ++ [⟨s.nextHandle, d, 30⟩], s.nextHandle + 1, s.notifyCount⟩ ∧
      DevicesNodup ⟨s.data, ainsert s.pendingPositions d p, ainsert pt1 d s.nextHandle,
        sched1 ++ [⟨s.nextHandle, d, 30⟩], s.nextHandle + 1, s.notifyCount⟩ := by
    intro sched1 pt1 hsub hnd hpt hnodup
    constructor
    · intro e he
      simp only [List.mem_append, List.mem_singleton] at he
      rcases he with he | he
      · have hdev := hnd e he
        rw [alookup_ainsert, if_neg (fun hh => hdev hh.symm), hpt e.device hdev]
        exact hL e (hsub e he)
      · subst he
        rw [alookup_ainsert, if_pos rfl]
    · simp only [DevicesNodup, List.map_append, List.map_cons, List.map_nil]
      rw [List.nodup_append]
      refine ⟨hnodup, List.nodup_singleton _, ?_⟩
      intro x hx
      simp only [List.mem_map] at hx
      obtain ⟨e, he, hex⟩ := hx
      simp only [List.mem_singleton]
      rw [← hex]
      exact fun hh => hnd e he hh
  cases hpt : alookup s.pendingTimeouts d with
  | none =>
      simp only [set_target_position, hpt]
      exact main s.scheduled s.pendingTimeouts (fun e he => he)
        (linked_no_entry hL hpt) (fun k _ => rfl) hN
  | some h0 =>
      simp only [set_target_position, hpt]
      refine main _ _ (fun e he => (List.mem_filter.mp he).1) ?_ ?_ ?_
      · intro e he hd
        obtain ⟨he1, he2⟩ := List.mem_filter.mp he
        have hne : e.handle ≠ h0 := by simpa using he2
        exact hne (linked_device_handle hL hpt e he1 hd)
      · intro k hk
        rw [alookup_aerase, if_neg (fun hh => hk hh.symm)]
      · exact List.Nodup.sublist (List.Sublist.map _ (List.filter_sublist _)) hN

theorem coordInv_apply (s : CoordState) (d : String)
    (hnd : ∀ e ∈ s.scheduled, e.device ≠ d) (h : CoordInv s) :
    CoordInv (apply_pending_position_callback s d) := by
  obtain ⟨hL, hN⟩ := h
  cases hpp : alookup s.pendingPositions d with
  | none =>
      simp only [apply_pending_position_callback, hpp]
      exact ⟨hL, hN⟩
  | some p =>
      cases hd : alookup s.data d with
      | some dd =>
          simp only [apply_pending_position_callback, hpp, hd]
          refine ⟨fun e he => ?_, hN⟩
          rw [alookup_aerase, if_neg (fun hh => hnd e he hh.symm)]
          exact hL e he
      | none =>
          simp only [apply_pending_position_callback, hpp, hd]
          refine ⟨fun e he => ?_, hN⟩
          rw [alookup_aerase, if_neg (fun hh => hnd e he hh.symm)]
          exact hL e he

theorem coordInv_notify (s : CoordState) (h : CoordInv s) : CoordInv (notify s) :=
  coordInv_transfer rfl rfl h

theorem coordInv_item (s : CoordState) (d itemName : String) (v : Int)
    (h : CoordInv s) : CoordInv (handle_item_update s d itemName v) := by
  cases hd : alookup s.data d with
  | none =>
      simp only [handle_item_update, hd]
      exact h
  | some dd =>
      simp only [handle_item_update, hd]
      by_cases h1 : itemName = "dimmer"
      · by_cases h2 : (alookup s.pendingPositions d).isSome <;>
          · simp only [h1, if_pos rfl, h2, if_true, if_false, Bool.false_eq_true]
            first
            | exact coordInv_notify _ (coordInv_clear _ d (coordInv_transfer rfl rfl h))
            | exact coordInv_notify _ (coordInv_transfer rfl rfl h)
      · by_cases h2 : itemName = "battery"
        · simp only [h1, h2, if_pos rfl, if_neg h1]
          exact coordInv_notify _ (coordInv_transfer rfl rfl h)
        · by_cases h3 : itemName = "switch"
          · simp only [h1, h2, h3, if_pos rfl, if_neg h1, if_neg h2]
            exact coordInv_notify _ (coordInv_transfer rfl rfl h)
          · simp only [if_neg h1, if_neg h2, if_neg h3]
            exact coordInv_notify _ h

theorem coordInv_device (s : CoordState) (d : String) (r : Option Bool)
    (h : CoordInv s) : CoordInv (handle_device_update s d r) := by
  by_cases hr : r = some false
  · simp only [handle_device_update, hr, if_pos rfl]
    cases hpp : alookup s.pendingPositions d with
    | none => exact h
    | some p =>
        cases hd : alookup s.data d with
        | some dd =>
            exact coordInv_clear _ d (coordInv_notify _ (coordInv_transfer rfl rfl h))
        | none => exact coordInv_clear _ d h
  · simp only [handle_device_update, if_neg hr]
    exact h

theorem coordInv_fire (s : CoordState) (h0 : Nat) (h : CoordInv s) :
    CoordInv (fire s h0) := by
  obtain ⟨hL, hN⟩ := h
  cases hf : s.scheduled.find? (fun e => e.handle == h0) with
  | none =>
      simp only [fire, hf]
      exact ⟨hL, hN⟩
  | some e =>
      simp only [fire, hf]
      have hmem : e ∈ s.scheduled := List.mem_of_find?_eq_some hf
      have hhandle : e.handle = h0 := by
        have := List.find?_some hf
        simpa using this
      have hinv1 : CoordInv
          { s with scheduled := s.scheduled.filter (fun e' => e'.handle != h0) } := by
        refine ⟨fun e' he' => hL e' (List.mem_filter.mp he').1, ?_⟩
        exact List.Nodup.sublist (List.Sublist.map _ (List.filter_sublist _)) hN
      refine coordInv_apply _ e.device ?_ hinv1
      intro e' he' hdev
      obtain ⟨he'1, he'2⟩ := List.mem_filter.mp he'
      have h1 := hL e' he'1
      have h2 := hL e hmem
      rw [hdev] at h1
      rw [h1] at h2
      have h3 : e.handle = e'.handle := by simpa using h2.symm
      have hne : e'.handle ≠ h0 := by simpa using he'2
      exact hne (h3.symm.trans hhandle)

theorem coordInv_step (s : CoordState) (ev : CoordEvent) (h : CoordInv s) :
    CoordInv (coordStep s ev) := by
  cases ev with
  | command d p => exact coordInv_set_target s d p h
  | itemUpdate d n v => exact coordInv_item s d n v h
  | deviceUpdate d r => exact coordInv_device s d r h
  | timeout h0 => exact coordInv_fire s h0 h

theorem filter_length_le_one_of_nodup_map {α : Type} (l : List α) (f : α → String)
    (hn : (l.map f).Nodup) (b : String) :
    (l.filter (fun a => f a == b)).length ≤ 1 := by
  induction l with
  | nil => simp
  | cons a t ih =>
      simp only [List.map_cons, List.nodup_cons] at hn
      obtain ⟨hna, hnt⟩ := hn
      by_cases hab : (f a == b) = true
      · have hft : t.filter (fun x => f x == b) = [] := by
          rw [List.filter_eq_nil_iff]
          intro x hx hfx
          have hfxb : f x = b := by simpa using hfx
          have hfab : f a = b := by simpa using hab
          exact hna (hfab.trans hfxb.symm ▸ List.mem_map_of_mem f hx)
        simp [List.filter_cons, hab, hft]
      · simpa [List.filter_cons, hab] using ih hnt

theorem liveFor_le_one (s : CoordState) (h : CoordInv s) (d : String) :
    liveFor s d ≤ 1 :=
  filter_length_le_one_of_nodup_map s.scheduled ScheduledTimeout.device h.2 d

theorem set_target_scheduled_filter (s : CoordState) (d : String) (p : Int)
    (hL : Linked s) :
    (set_target_position s d p).scheduled.filter (fun e => e.device == d)
      = [⟨s.nextHandle, d, 30⟩] := by
  cases hpt : alookup s.pendingTimeouts d with
  | none =>
      simp only [set_target_position, hpt, List.filter_append]
      have h1 : s.scheduled.filter (fun e => e.device == d) = [] := by
        rw [List.filter_eq_nil_iff]
        intro e he hdev
        exact linked_no_entry hL hpt e he (by simpa using hdev)
      rw [h1]
      simp
  | some h0 =>
      simp only [set_target_position, hpt, List.filter_append]
      have h1 : ((s.scheduled.filter (fun e' => e'.handle != h0)).filter
          (fun e => e.device == d)) = [] := by
        rw [List.filter_eq_nil_iff]
        intro e he hdev
        obtain ⟨he1, he2⟩ := List.mem_filter.mp he
        have hne : e.handle ≠ h0 := by simpa using he2
        exact hne (linked_device_handle hL hpt e he1 (by simpa using hdev))
      rw [h1]
      simp

theorem set_target_pendingPositions (s : CoordState) (d : String) (p : Int) :
    (set_target_position s d p).pendingPositions = ainsert s.pendingPositions d p := by
  cases hpt : alookup s.pendingTimeouts d <;> simp [set_target_position, hpt]

theorem set_target_data (s : CoordState) (d : String) (p : Int) :
    (set_target_position s d p).data = s.data := by
  cases hpt : alookup s.pendingTimeouts d <;> simp [set_target_position, hpt]

theorem clear_pending_pendingPositions (s : CoordState) (d : String) :
    (clear_pending_position s d).pendingPositions = aerase s.pendingPositions d := by
  cases hpt : alookup s.pendingTimeouts d <;> simp [clear_pending_position, hpt]

theorem clear_pending_data (s : CoordState) (d : String) :
    (clear_pending_position s d).data = s.data := by
  cases hpt : alookup s.pendingTimeouts d <;> simp [clear_pending_position, hpt]

theorem posOf_fire (s : CoordState) (h : Nat) (d : String) :
    posOf (fire s h) d = posOf s d ∨
    ∃ p, alookup s.pendingPositions d = some p ∧ posOf (fire s h) d = some p := by
  cases hf : s.scheduled.find? (fun e => e.handle == h) with
  | none =>
      left
      simp [fire, hf]
  | some e =>
      simp only [fire, hf]
      by_cases hdev : e.device = d
      · rw [hdev]
        cases hpp : alookup s.pendingPositions d with
        | none =>
            left
            simp [apply_pending_position_callback, hpp, posOf]
        | some p =>
            cases hdd : alookup s.data d with
            | some dd =>
                right
                refine ⟨p, rfl, ?_⟩
                simp [apply_pending_position_callback, hpp, hdd, posOf, alookup_ainsert]
            | none =>
                left
                simp [apply_pending_position_callback, hpp, hdd, posOf]
      · left
        cases hpp : alookup s.pendingPositions e.device with
        | none => simp [apply_pending_position_callback, hpp, posOf]
        | some p =>
            cases hdd : alookup s.data e.device with
            | some dd =>
                simp [apply_pending_position_callback, hpp, hdd, posOf,
                  alookup_ainsert, if_neg hdev]
            | none => simp [apply_pending_position_callback, hpp, hdd, posOf]

/-- C3: with the coordinator invariant, every step preserves it, every
device has at most one live timeout (and, the pending table being a dict,
at most one pending command); commanding 20 then 80 on the same device
leaves pending target 80 and exactly one live timeout, and any timeout
that then fires either leaves the device's reported position unchanged or
sets it to 80 — never to 20. -/
theorem coordinator_single_pending_single_timeout (s : CoordState) (d : String)
    (hInv : CoordInv s) :
    (∀ ev, CoordInv (coordStep s ev)) ∧
    (∀ d', liveFor s d' ≤ 1) ∧
    (alookup (set_target_position (set_target_position s d 20) d 80).pendingPositions d
      = some 80) ∧
    (liveFor (set_target_position (set_target_position s d 20) d 80) d = 1) ∧
    (∀ h, posOf (fire (set_target_position (set_target_position s d 20) d 80) h) d
            = posOf s d
        ∨ posOf (fire (set_target_position (set_target_position s d 20) d 80) h) d
            = some 80) := by
  have hInv1 : CoordInv (set_target_position s d 20) := coordInv_set_target s d 20 hInv
  refine ⟨fun ev => coordInv_step s ev hInv, fun d' => liveFor_le_one s hInv d',
    ?_, ?_, ?_⟩
  · rw [set_target_pendingPositions, alookup_ainsert, if_pos rfl]
  · rw [liveFor, set_target_scheduled_filter _ _ _ hInv1.1]
    rfl
  · intro h
    rcases posOf_fire (set_target_position (set_target_position s d 20) d 80) h d with
      hc | ⟨p, hp, hc⟩
    · left
      rw [hc, posOf, posOf, set_target_data, set_target_data]
    · right
      rw [set_target_pendingPositions, alookup_ainsert, if_pos rfl] at hp
      have hp80 : p = 80 := by simpa using hp.symm
      rw [hc, hp80]

/-- A concrete coordinator state: one discovered device with a reported
position and no pending command. -/
def coordInit : CoordState :=
  ⟨[("blind1", ⟨some 0, none, none⟩)], [], [], [], 0, 0⟩

/-- Witness for C3 at `coordInit`. -/
theorem coordinator_single_pending_single_timeout_witness :
    liveFor (set_target_position (set_target_position coordInit "blind1" 20)
      "blind1" 80) "blind1" = 1 :=
  (coordinator_single_pending_single_timeout coordInit "blind1"
    ⟨fun e he => absurd he (by simp [coordInit]),
     by simp [DevicesNodup, coordInit]⟩).2.2.2.1

/-- C2: a device with a pending command returns to Idle, and the pending
state is cleared, by whichever of the three events arrives first: (a) a
real `dimmer` update, after which the reported position is the update's
value `v` (even when `v` differs from the target `p`); (b) a
device-unreachable push, after which the reported position is the
commanded target `p`; (c) the firing of the device's scheduled 30-unit
timeout, after which the reported position is the commanded target `p`. -/
theorem pending_cleared_by_update_unreachable_or_timeout
    (s : CoordState) (d : String) (p v : Int) (h : Nat) (dd : DevData)
    (hpend : alookup s.pendingPositions d = some p)
    (hdata : alookup s.data d = some dd) :
    (alookup (handle_item_update s d "dimmer" v).pendingPositions d = none ∧
     posOf (handle_item_update s d "dimmer" v) d = some v) ∧
    (alookup (handle_device_update s d (some false)).pendingPositions d = none ∧
     posOf (handle_device_update s d (some false)) d = some p) ∧
    (s.scheduled.find? (fun e => e.handle == h) = some ⟨h, d, 30⟩ →
     alookup (fire s h).pendingPositions d = none ∧
     posOf (fire s h) d = some p) := by
  refine ⟨⟨?_, ?_⟩, ⟨?_, ?_⟩, fun hfind => ⟨?_, ?_⟩⟩
  · simp [handle_item_update, hdata, hpend, notify, clear_pending_pendingPositions,
      alookup_aerase]
  · simp [handle_item_update, hdata, hpend, posOf, notify, clear_pending_data,
      alookup_ainsert]
  · simp [handle_device_update, hpend, hdata, notify, clear_pending_pendingPositions,
      alookup_aerase]
  · simp [handle_device_update, hpend, hdata, posOf, notify, clear_pending_data,
      alookup_ainsert]
  · simp [fire, hfind, apply_pending_position_callback, hpend, hdata, alookup_aerase]
  · simp [fire, hfind, apply_pending_position_callback, hpend, hdata, posOf,
      alookup_ainsert]

/-- Witness for C2 at a concrete pending state. -/
theorem pending_cleared_witness :
    posOf (handle_item_update
      ⟨[("blind1", ⟨some 0, none, none⟩)], [("blind1", 40)], [("blind1", 0)],
        [⟨0, "blind1", 30⟩], 1, 0⟩ "blind1" "dimmer" 55) "blind1" = some 55 :=
  (pending_cleared_by_update_unreachable_or_timeout
    ⟨[("blind1", ⟨some 0, none, none⟩)], [("blind1", 40)], [("blind1", 0)],
      [⟨0, "blind1", 30⟩], 1, 0⟩ "blind1" 40 55 0 ⟨some 0, none, none⟩
    (by decide) (by decide)).1.2

/-- C10: a `hub.item.updated` push for a device id absent from the
coordinator's `data` changes nothing at all — in particular the reported
state, both pending tables, the live timeouts and the notification count
are unchanged, and a pending command recorded for that id survives. -/
theorem item_update_unknown_device_is_noop (s : CoordState) (d itemName : String)
    (v : Int) (hd : alookup s.data d = none) :
    handle_item_update s d itemName v = s ∧
    (handle_item_update s d itemName v).notifyCount = s.notifyCount ∧
    alookup (handle_item_update s d itemName v).pendingPositions d
      = alookup s.pendingPositions d := by
  have h1 : handle_item_update s d itemName v = s := by
    simp [handle_item_update, hd]
  exact ⟨h1, by rw [h1], by rw [h1]⟩

/-- Witness for C10: device `"ghost"` is not in `data` but has a pending
command; the update leaves the state untouched. -/
theorem item_update_unknown_device_is_noop_witness :
    handle_item_update
      ⟨[("blind1", ⟨some 0, none, none⟩)], [("ghost", 40)], [("ghost", 0)],
        [⟨0, "ghost", 30⟩], 1, 0⟩ "ghost" "dimmer" 55
      = ⟨[("blind1", ⟨some 0, none, none⟩)], [("ghost", 40)], [("ghost", 0)],
        [⟨0, "ghost", 30⟩], 1, 0⟩ :=
  (item_update_unknown_device_is_noop
    ⟨[("blind1", ⟨some 0, none, none⟩)], [("ghost", 40)], [("ghost", 0)],
      [⟨0, "ghost", 30⟩], 1, 0⟩ "ghost" "dimmer" 55 (by decide)).1

/-! ## The WebSocket RPC session (api.py, class `BaliWebSocket`)

Correlation ids are strings (uuid4 in the source; freshness is a
hypothesis where needed), push subscribers are opaque callback ids
(`Nat`), and a callback-behaviour oracle `cbFails` tells which callbacks
raise when invoked — the handler catches and logs those per callback, as
the source does. -/

/-- The state of one pending-call `asyncio.Future`. -/
inductive FutState where
  | waiting : FutState
  | done (v : Option Int) : FutState
deriving DecidableEq, Repr

/-- An inbound WebSocket JSON message: optional `id`, optional `result`
value, optional `msg_subclass`. -/
structure WsMsg where
  msgId : Option String
  result : Option Int
  subclass : Option String
deriving DecidableEq, Repr

/-- The `BaliWebSocket` object state: whether `_ws` is open (not `None`
and not closed), the `_connected` flag, `_listeners`, `_pending_responses`,
and the correlation ids of messages actually written to the transport. -/
structure WsState where
  wsOpen : Bool
  connectedFlag : Bool
  listeners : List (String × List Nat)
  pending : List (String × FutState)
  outbound : List String
deriving DecidableEq, Repr

/-- The `connected` property (api.py 278–281):
`self._connected and self._ws is not None and not self._ws.closed`. -/
def wsConnected (s : WsState) : Bool :=
  s.connectedFlag && s.wsOpen

/-- Python truthiness of an optional string (`if msg_id and …`): both a
missing key and the empty string are falsy. -/
def truthyKey : Option String → Option String
  | none => none
  | some k => if k = "" then none else some k

/-- What one `_handle_message` run did. -/
inductive HandleEffect where
  | resolvedSlot (msgId : String) (v : Option Int) : HandleEffect
  | staleDone (msgId : String) : HandleEffect
  | invoked (subclass : String) (callbacks failed : List Nat) : HandleEffect
  | dropped : HandleEffect
deriving DecidableEq, Repr

/-- The broadcast half of `_handle_message` (api.py 211–218): dispatch on
a recognised `msg_subclass` to every registered callback in order; a
callback that raises is caught and logged, and the remaining callbacks
still run. -/
def handle_notification (cbFails : Nat → Bool) (s : WsState) (m : WsMsg) :
    WsState × HandleEffect :=
  match truthyKey m.subclass with
  | some sub =>
      match alookup s.listeners sub with
      | some cbs => (s, HandleEffect.invoked sub cbs (cbs.filter cbFails))
      | none => (s, HandleEffect.dropped)
  | none => (s, HandleEffect.dropped)

/-- `_handle_message` (api.py 200–218): a message whose (truthy) `id`
matches a pending slot pops exactly that slot and resolves its future
(when not already done), taking priority over notification dispatch;
otherwise the message goes to notification dispatch. -/
def handle_message (cbFails : Nat → Bool) (s : WsState) (m : WsMsg) :
    WsState × HandleEffect :=
  match truthyKey m.msgId with
  | some i =>
      match alookup s.pending i with
      | some fut =>
          ({ s with pending := aerase s.pending i },
           match fut with
           | FutState.waiting => HandleEffect.resolvedSlot i m.result
           | FutState.done _ => HandleEffect.staleDone i)
      | none => handle_notification cbFails s m
  | none => handle_notification cbFails s m

/-- Outcome of the send half of `_send_message`. -/
inductive SendOutcome where
  | connError (msg : String) : SendOutcome
  | awaitingResponse (msgId : String) : SendOutcome
deriving DecidableEq, Repr

/-- The send half of `_send_message` (api.py 220–239): with no open
transport it raises `BaliConnectionError` and sends nothing; otherwise it
registers a future under the fresh correlation id and writes the message
to the transport. -/
def send_message (s : WsState) (fresh : String) : WsState × SendOutcome :=
  if !s.wsOpen then
    (s, SendOutcome.connError "WebSocket not connected")
  else
    ({ s with
        pending := ainsert s.pending fresh FutState.waiting,
        outbound := s.outbound ++ [fresh] },
     SendOutcome.awaitingResponse fresh)

/-- The timeout branch of `_send_message` (api.py 241–247): after 30
seconds with no response, `self._pending_responses.pop(msg_id, None)` and
`BaliConnectionError`. -/
def send_timeout (s : WsState) (msgId method : String) : WsState × SendOutcome :=
  ({ s with pending := aerase s.pending msgId },
   SendOutcome.connError ("Timeout waiting for response to " ++ method))

/-- The payload of one inbound `TEXT` frame: `malformed` when
`json.loads` raises `JSONDecodeError`; `handlerRaises` when the payload
parses but its handling raises an exception other than
`json.JSONDecodeError` — e.g. a payload that is valid JSON but not an
object (`data.get("id")` raises `AttributeError` on `"5"` or `[1]`), or
an object whose `id` is unhashable (`msg_id in self._pending_responses`
raises `TypeError`); `ok` when the payload parses to a well-formed
message object, for which `_handle_message` is total (every remaining
exception source in it is guarded). -/
inductive TextPayload where
  | malformed : TextPayload
  | handlerRaises (reason : String) : TextPayload
  | ok (m : WsMsg) : TextPayload

/-- One event seen by the receive loop; the end of the list models the
stream ending. -/
inductive WsEvent where
  | text (p : TextPayload) : WsEvent
  | errorEvent : WsEvent

/-- How a receive-loop run ended: the stream ended; a `WSMsgType.ERROR`
frame broke out of the loop; or a per-message handling exception escaped
the inner `except json.JSONDecodeError` (api.py 188) and was swallowed by
the outer `except Exception` (api.py 197) — the loop is over either way. -/
inductive LoopExit where
  | streamEnded : LoopExit
  | transportError : LoopExit
  | handlerException (reason : String) : LoopExit
deriving DecidableEq, Repr

/-- `_receive_messages` (api.py 176–198), frame by frame: malformed JSON
is caught by the inner `except json.JSONDecodeError` and skipped; a
well-formed message goes through `_handle_message`; a parsed payload
whose handling raises anything else aborts the `async for` — the outer
`except Exception` only logs it, and the loop terminates with
`_connected` and the transport left exactly as they were; a
`WSMsgType.ERROR` frame breaks out of the loop, a transport-level error
leaving the underlying connection closed, so the `connected` property
turns false. -/
def receive_messages (cbFails : Nat → Bool) :
    WsState → List WsEvent → WsState × LoopExit
  | s, [] => (s, LoopExit.streamEnded)
  | s, WsEvent.errorEvent :: _ => ({ s with wsOpen := false }, LoopExit.transportError)
  | s, WsEvent.text TextPayload.malformed :: rest => receive_messages cbFails s rest
  | s, WsEvent.text (TextPayload.handlerRaises r) :: _ =>
      (s, LoopExit.handlerException r)
  | s, WsEvent.text (TextPayload.ok m) :: rest =>
      receive_messages cbFails (handle_message cbFails s m).1 rest

/-- C4: with no open transport an RPC call fails at once with
`BaliConnectionError` and sends nothing; with an open transport it
registers a completion slot under the fresh correlation id and writes the
message; on timeout the slot is deregistered and the call fails with
`BaliConnectionError`; a response whose id matches no slot is dropped with
no effect; a response whose id matches a waiting slot resolves exactly
that slot — the slot is removed and every other slot is untouched —
with priority over notification dispatch. -/
theorem rpc_call_correlation (s : WsState) (cbFails : Nat → Bool)
    (fresh i method : String) (r : Option Int) :
    (s.wsOpen = false →
      send_message s fresh = (s, SendOutcome.connError "WebSocket not connected")) ∧
    (s.wsOpen = true →
      (send_message s fresh).2 = SendOutcome.awaitingResponse fresh ∧
      alookup (send_message s fresh).1.pending fresh = some FutState.waiting ∧
      (send_message s fresh).1.outbound = s.outbound ++ [fresh]) ∧
    (alookup (send_timeout s i method).1.pending i = none ∧
      (send_timeout s i method).2
        = SendOutcome.connError ("Timeout waiting for response to " ++ method)) ∧
    (i ≠ "" → alookup s.pending i = none →
      handle_message cbFails s ⟨some i, r, none⟩ = (s, HandleEffect.dropped)) ∧
    (∀ sub, i ≠ "" → alookup s.pending i = some FutState.waiting →
      (handle_message cbFails s ⟨some i, r, sub⟩).2 = HandleEffect.resolvedSlot i r ∧
      alookup (handle_message cbFails s ⟨some i, r, sub⟩).1.pending i = none ∧
      ∀ j, j ≠ i →
        alookup (handle_message cbFails s ⟨some i, r, sub⟩).1.pending j
          = alookup s.pending j) := by
  refine ⟨?_, ?_, ⟨?_, rfl⟩, ?_, ?_⟩
  · intro h
    simp [send_message, h]
  · intro h
    simp [send_message, h, alookup_ainsert]
  · simp [send_timeout, alookup_aerase]
  · intro hne hnone
    simp [handle_message, truthyKey, hne, hnone, handle_notification]
  · intro sub hne hsome
    have hred : handle_message cbFails s ⟨some i, r, sub⟩
        = ({ s with pending := aerase s.pending i }, HandleEffect.resolvedSlot i r) := by
      simp [handle_message, truthyKey, hne, hsome]
    rw [hred]
    refine ⟨rfl, ?_, ?_⟩
    · simp [alookup_aerase]
    · intro j hj
      rw [alookup_aerase, if_neg (Ne.symm hj)]

/-- Witness for C4: a late response to an already-timed-out call finds no
slot and is dropped. -/
theorem rpc_call_correlation_witness :
    handle_message (fun _ => false) ⟨true, true, [], [], []⟩ ⟨some "late", none, none⟩
      = (⟨true, true, [], [], []⟩, HandleEffect.dropped) :=
  (rpc_call_correlation ⟨true, true, [], [], []⟩ (fun _ => false) "x" "late" "m"
    none).2.2.2.1 (by decide) (by decide)

/-! ## `BaliWebSocket.connect` (api.py 86–157)

One attempt bundles the sub-steps open-transport / start-receive-loop /
login / register; the environment oracle `outs` gives each attempt's
outcome.  The trace records the number of attempts executed, the backoff
delays slept, the number of failure cleanups (close/discard of the
transport), whether the transport was kept, the `_connected` flag, and
`some lastErr` when `BaliConnectionError` was raised. -/

/-- Outcome of one connection attempt. -/
inductive AttemptOut where
  | ok : AttemptOut
  | fail (err : String) : AttemptOut
deriving DecidableEq, Repr

/-- Observable trace of one `connect` run. -/
structure ConnTrace where
  attempts : Nat
  delays : List ℚ
  cleanups : Nat
  wsKept : Bool
  connectedFlag : Bool
  failure : Option (Option String)
deriving DecidableEq, Repr

/-- The retry loop of `connect`: `r` attempts remain, `i` attempts were
already made (`i` is also the next attempt's 0-based index), `lastErr`
the last failure.  A failed attempt closes and discards the transport;
the loop sleeps `retryDelay * 2 ^ attempt` only when another attempt
remains; exhausting the range raises `BaliConnectionError` wrapping the
last failure. -/
def connectGo (outs : Nat → AttemptOut) (retryDelay : ℚ) :
    Nat → Nat → Option String → List ℚ → Nat → ConnTrace
  | 0, i, lastErr, delays, cleanups =>
      ⟨i, delays, cleanups, false, false, some lastErr⟩
  | r + 1, i, _lastErr, delays, cleanups =>
      match outs i with
      | AttemptOut.ok => ⟨i + 1, delays, cleanups, true, true, none⟩
      | AttemptOut.fail e =>
          connectGo outs retryDelay r (i + 1) (some e)
            (if r = 0 then delays else delays ++ [retryDelay * 2 ^ i]) (cleanups + 1)

theorem connectGo_succ_ok (outs : Nat → AttemptOut) (retryDelay : ℚ) (r i : Nat)
    (lastErr : Option String) (delays : List ℚ) (cleanups : Nat)
    (hout : outs i = AttemptOut.ok) :
    connectGo outs retryDelay (r + 1) i lastErr delays cleanups
      = ⟨i + 1, delays, cleanups, true, true, none⟩ := by
  have h : connectGo outs retryDelay (r + 1) i lastErr delays cleanups
      = match outs i with
        | AttemptOut.ok => (⟨i + 1, delays, cleanups, true, true, none⟩ : ConnTrace)
        | AttemptOut.fail e =>
            connectGo outs retryDelay r (i + 1) (some e)
              (if r = 0 then delays else delays ++ [retryDelay * 2 ^ i]) (cleanups + 1) :=
    rfl
  rw [h, hout]

theorem connectGo_succ_fail (outs : Nat → AttemptOut) (retryDelay : ℚ) (r i : Nat)
    (lastErr : Option String) (delays : List ℚ) (cleanups : Nat) (e : String)
    (hout : outs i = AttemptOut.fail e) :
    connectGo outs retryDelay (r + 1) i lastErr delays cleanups
      = connectGo outs retryDelay r (i + 1) (some e)
          (if r = 0 then delays else delays ++ [retryDelay * 2 ^ i]) (cleanups + 1) := by
  have h : connectGo outs retryDelay (r + 1) i lastErr delays cleanups
      = match outs i with
        | AttemptOut.ok => (⟨i + 1, delays, cleanups, true, true, none⟩ : ConnTrace)
        | AttemptOut.fail e =>
            connectGo outs retryDelay r (i + 1) (some e)
              (if r = 0 then delays else delays ++ [retryDelay * 2 ^ i]) (cleanups + 1) :=
    rfl
  rw [h, hout]

/-- `BaliWebSocket.connect(max_retries, retry_delay)`. -/
def wsConnect (outs : Nat → AttemptOut) (maxRetries : Nat) (retryDelay : ℚ) :
    ConnTrace :=
  connectGo outs retryDelay maxRetries 0 none [] 0

/-- The backoff delays for failed attempts `i, i+1, …, i+k-1`. -/
def backoffDelays (retryDelay : ℚ) (i k : Nat) : List ℚ :=
  (List.range k).map (fun j => retryDelay * 2 ^ (i + j))

theorem backoffDelays_zero (retryDelay : ℚ) (i : Nat) :
    backoffDelays retryDelay i 0 = [] := rfl

theorem backoffDelays_succ (retryDelay : ℚ) (i k : Nat) :
    backoffDelays retryDelay i (k + 1)
      = retryDelay * 2 ^ i :: backoffDelays retryDelay (i + 1) k := by
  simp only [backoffDelays, List.range_succ_eq_map, List.map_cons, List.map_map,
    Nat.add_zero]
  congr 1
  apply List.map_congr_left
  intro j _
  show retryDelay * 2 ^ (i + Nat.succ j) = retryDelay * 2 ^ (i + 1 + j)
  have e : i + Nat.succ j = i + 1 + j := by omega
  rw [e]

theorem connectGo_attempts_le (outs : Nat → AttemptOut) (retryDelay : ℚ) :
    ∀ r i lastErr delays cleanups,
      (connectGo outs retryDelay r i lastErr delays cleanups).attempts ≤ i + r := by
  intro r
  induction r with
  | zero =>
      intro i lastErr delays cleanups
      exact Nat.le_add_right i 0
  | succ r ih =>
      intro i lastErr delays cleanups
      cases h : outs i with
      | ok =>
          rw [connectGo_succ_ok outs retryDelay r i lastErr delays cleanups h]
          show i + 1 ≤ i + (r + 1)
          omega
      | fail e =>
          rw [connectGo_succ_fail outs retryDelay r i lastErr delays cleanups e h]
          have := ih (i + 1) (some e)
            (if r = 0 then delays else delays ++ [retryDelay * 2 ^ i]) (cleanups + 1)
          omega

theorem connectGo_success (outs : Nat → AttemptOut) (retryDelay : ℚ) :
    ∀ k r i lastErr delays cleanups, k < r →
      (∀ j, j < k → outs (i + j) ≠ AttemptOut.ok) → outs (i + k) = AttemptOut.ok →
      connectGo outs retryDelay r i lastErr delays cleanups
        = ⟨i + k + 1, delays ++ backoffDelays retryDelay i k, cleanups + k,
           true, true, none⟩ := by
  intro k
  induction k with
  | zero =>
      intro r i lastErr delays cleanups hk _ hok
      obtain ⟨r', rfl⟩ : ∃ r', r = r' + 1 := ⟨r - 1, by omega⟩
      rw [Nat.add_zero] at hok
      rw [connectGo_succ_ok outs retryDelay r' i lastErr delays cleanups hok,
        backoffDelays_zero, List.append_nil]
      rfl
  | succ k ih =>
      intro r i lastErr delays cleanups hk hfail hok
      obtain ⟨r', rfl⟩ : ∃ r', r = r' + 1 := ⟨r - 1, by omega⟩
      have h0 : outs i ≠ AttemptOut.ok := by
        have := hfail 0 (Nat.succ_pos k)
        simpa using this
      cases hout : outs i with
      | ok => exact absurd hout h0
      | fail e =>
          have hr' : r' ≠ 0 := by omega
          rw [connectGo_succ_fail outs retryDelay r' i lastErr delays cleanups e hout,
            if_neg hr']
          have hrec := ih r' (i + 1) (some e) (delays ++ [retryDelay * 2 ^ i])
            (cleanups + 1) (by omega)
            (fun j hj => by
              have hx := hfail (j + 1) (by omega)
              have ej : i + (j + 1) = i + 1 + j := by omega
              rw [ej] at hx
              exact hx)
            (by
              have ek : i + 1 + k = i + (k + 1) := by omega
              rw [ek]
              exact hok)
          rw [hrec, backoffDelays_succ, List.append_assoc]
          have e1 : i + 1 + k + 1 = i + (k + 1) + 1 := by omega
          have e2 : cleanups + 1 + k = cleanups + (k + 1) := by omega
          rw [e1, e2]
          rfl

theorem connectGo_all_fail (outs : Nat → AttemptOut) (retryDelay : ℚ)
    (f : Nat → String) :
    ∀ r i lastErr delays cleanups,
      (∀ j, j < r + 1 → outs (i + j) = AttemptOut.fail (f (i + j))) →
      connectGo outs retryDelay (r + 1) i lastErr delays cleanups
        = ⟨i + (r + 1), delays ++ backoffDelays retryDelay i r, cleanups + (r + 1),
           false, false, some (some (f (i + r)))⟩ := by
  intro r
  induction r with
  | zero =>
      intro i lastErr delays cleanups hfail
      have h0 : outs i = AttemptOut.fail (f i) := by
        have := hfail 0 Nat.one_pos
        simpa using this
      rw [connectGo_succ_fail outs retryDelay 0 i lastErr delays cleanups (f i) h0,
        if_pos rfl, backoffDelays_zero, List.append_nil]
      rfl
  | succ r ih =>
      intro i lastErr delays cleanups hfail
      have h0 : outs i = AttemptOut.fail (f i) := by
        have := hfail 0 (Nat.succ_pos _)
        simpa using this
      rw [connectGo_succ_fail outs retryDelay (r + 1) i lastErr delays cleanups (f i) h0,
        if_neg (Nat.succ_ne_zero r)]
      have hrec := ih (i + 1) (some (f i)) (delays ++ [retryDelay * 2 ^ i])
        (cleanups + 1)
        (fun j hj => by
          have hx := hfail (j + 1) (by omega)
          have ej : i + (j + 1) = i + 1 + j := by omega
          rw [ej] at hx
          exact hx)
      rw [hrec, backoffDelays_succ, List.append_assoc]
      have e1 : i + 1 + (r + 1) = i + (r + 1 + 1) := by omega
      have e2 : cleanups + 1 + (r + 1) = cleanups + (r + 1 + 1) := by omega
      have e3 : i + 1 + r = i + (r + 1) := by omega
      rw [e1, e2, e3]
      rfl

/-- C7: `connect(maxRetries, retryDelay)` makes at most `maxRetries`
attempts; when the first success is attempt `k`, every earlier failed
attempt `j` was followed by a sleep of `retryDelay * 2 ^ j` and a
transport cleanup, and the run ends connected with the transport kept;
when every attempt fails, the run makes exactly `maxRetries` attempts,
sleeps after each but the last, discards the transport each time, and
raises `BaliConnectionError` wrapping the last attempt's failure. -/
theorem connect_bounded_retry_with_backoff (outs : Nat → AttemptOut)
    (maxRetries : Nat) (retryDelay : ℚ) :
    ((wsConnect outs maxRetries retryDelay).attempts ≤ maxRetries) ∧
    (∀ k, k < maxRetries → (∀ j, j < k → outs j ≠ AttemptOut.ok) →
      outs k = AttemptOut.ok →
      wsConnect outs maxRetries retryDelay
        = ⟨k + 1, backoffDelays retryDelay 0 k, k, true, true, none⟩) ∧
    (∀ f : Nat → String, 1 ≤ maxRetries →
      (∀ j, j < maxRetries → outs j = AttemptOut.fail (f j)) →
      wsConnect outs maxRetries retryDelay
        = ⟨maxRetries, backoffDelays retryDelay 0 (maxRetries - 1), maxRetries,
           false, false, some (some (f (maxRetries - 1)))⟩) := by
  refine ⟨?_, ?_, ?_⟩
  · have := connectGo_attempts_le outs retryDelay maxRetries 0 none [] 0
    simpa [wsConnect] using this
  · intro k hk hfail hok
    have := connectGo_success outs retryDelay k maxRetries 0 none [] 0 hk
      (by simpa using hfail) (by simpa using hok)
    simpa [wsConnect] using this
  · intro f h1 hfail
    obtain ⟨m, rfl⟩ : ∃ m, maxRetries = m + 1 := ⟨maxRetries - 1, by omega⟩
    have := connectGo_all_fail outs retryDelay f m 0 none [] 0
      (by simpa using hfail)
    simpa [wsConnect] using this

/-- Witness for C7: the first two attempts fail, the third succeeds;
delays 2·2⁰ and 2·2¹ are slept and the session ends connected. -/
theorem connect_bounded_retry_with_backoff_witness :
    wsConnect (fun j => if j < 2 then AttemptOut.fail "refused" else AttemptOut.ok)
      3 2 = ⟨3, [2 * 2 ^ 0, 2 * 2 ^ 1], 2, true, true, none⟩ :=
  (connect_bounded_retry_with_backoff
    (fun j => if j < 2 then AttemptOut.fail "refused" else AttemptOut.ok) 3 2).2.1
    2 (by decide) (by decide) (by decide)

/-! ## `BaliAPI` connection management and the listener registry
(api.py 249–262, 526–599) -/

/-- `BaliWebSocket.add_listener` (api.py 249–255): append the callback to
the topic's list, creating the list when the topic is new. -/
def ws_add_listener (s : WsState) (eventId : String) (cb : Nat) : WsState :=
  { s with listeners :=
      ainsert s.listeners eventId ((alookup s.listeners eventId).getD [] ++ [cb]) }

/-- A freshly constructed, successfully connected `BaliWebSocket`: empty
listener table, empty pending table. -/
def freshWs : WsState := ⟨true, true, [], [], []⟩

/-- The re-registration loop of `ensure_websocket_connected` (api.py
578–582): subscribe every stored update callback, in registry order, to
`hub.item.updated` and `hub.device.updated`. -/
def register_callbacks : WsState → List Nat → WsState
  | ws, [] => ws
  | ws, cb :: rest =>
      register_callbacks
        (ws_add_listener (ws_add_listener ws "hub.item.updated" cb)
          "hub.device.updated" cb) rest

/-- The `BaliAPI` state relevant to connection management: the current
session object, the durable `_update_callbacks` registry (kept outside
the session object), and whether `_auth_data` is present. -/
structure ApiState where
  websocket : Option WsState
  updateCallbacks : List Nat
  authenticated : Bool
deriving DecidableEq, Repr

/-- `add_update_listener` (api.py 590–599): record the callback in the
durable registry (once) and, when a session object exists, subscribe it
to both update topics. -/
def add_update_listener (s : ApiState) (cb : Nat) : ApiState :=
  match s.websocket with
  | none =>
      { s with updateCallbacks :=
          if cb ∈ s.updateCallbacks then s.updateCallbacks
          else s.updateCallbacks ++ [cb] }
  | some ws =>
      { s with
          updateCallbacks :=
            if cb ∈ s.updateCallbacks then s.updateCallbacks
            else s.updateCallbacks ++ [cb],
          websocket := some (ws_add_listener
            (ws_add_listener ws "hub.item.updated" cb) "hub.device.updated" cb) }

/-- The reconnect path of `ensure_websocket_connected` (api.py 566–582)
together with `connect_websocket` (api.py 526–552): raises
`BaliAuthError` without auth data; `connectOk` tells whether the
`BaliWebSocket.connect` handshake succeeded (its failure raises
`BaliConnectionError`, claim C7's territory); on success a fresh
connected session replaces the discarded one and every registered update
listener is re-subscribed to it. -/
def reconnect_websocket (s : ApiState) (connectOk : Bool) :
    Except String ApiState :=
  if !s.authenticated then Except.error "Not authenticated"
  else if !connectOk then Except.error "WebSocket connection failed"
  else Except.ok
    { s with websocket := some (register_callbacks freshWs s.updateCallbacks) }

/-- `ensure_websocket_connected` (api.py 554–582): a no-op when the
current session reports connected; otherwise the old session is
disconnected (best effort, errors swallowed) and discarded, a new one
connected, and the durable listener registry re-subscribed. -/
def ensure_websocket_connected (s : ApiState) (connectOk : Bool) :
    Except String ApiState :=
  match s.websocket with
  | some ws =>
      if wsConnected ws then Except.ok s
      else reconnect_websocket { s with websocket := none } connectOk
  | none => reconnect_websocket s connectOk

theorem ws_add_listener_lookup_self (ws : WsState) (t : String) (cb : Nat) :
    alookup (ws_add_listener ws t cb).listeners t
      = some ((alookup ws.listeners t).getD [] ++ [cb]) := by
  simp [ws_add_listener, alookup_ainsert]

theorem ws_add_listener_lookup_ne (ws : WsState) (t t' : String) (cb : Nat)
    (h : t' ≠ t) :
    alookup (ws_add_listener ws t' cb).listeners t = alookup ws.listeners t := by
  simp [ws_add_listener, alookup_ainsert, if_neg h]

theorem register_callbacks_lookup (cbs : List Nat) :
    ∀ ws : WsState, ∀ pre1 pre2 : List Nat,
      alookup ws.listeners "hub.item.updated" = some pre1 →
      alookup ws.listeners "hub.device.updated" = some pre2 →
      alookup (register_callbacks ws cbs).listeners "hub.item.updated"
          = some (pre1 ++ cbs) ∧
      alookup (register_callbacks ws cbs).listeners "hub.device.updated"
          = some (pre2 ++ cbs) ∧
      wsConnected (register_callbacks ws cbs) = wsConnected ws := by
  induction cbs with
  | nil =>
      intro ws pre1 pre2 h1 h2
      exact ⟨by simpa [register_callbacks] using h1,
        by simpa [register_callbacks] using h2, rfl⟩
  | cons cb rest ih =>
      intro ws pre1 pre2 h1 h2
      have hne : ("hub.device.updated" : String) ≠ "hub.item.updated" := by decide
      have hne' : ("hub.item.updated" : String) ≠ "hub.device.updated" := by decide
      have hitem : alookup (ws_add_listener (ws_add_listener ws "hub.item.updated" cb)
          "hub.device.updated" cb).listeners "hub.item.updated"
          = some (pre1 ++ [cb]) := by
        rw [ws_add_listener_lookup_ne _ _ _ _ hne, ws_add_listener_lookup_self, h1]
        rfl
      have hdev : alookup (ws_add_listener (ws_add_listener ws "hub.item.updated" cb)
          "hub.device.updated" cb).listeners "hub.device.updated"
          = some (pre2 ++ [cb]) := by
        rw [ws_add_listener_lookup_self, ws_add_listener_lookup_ne _ _ _ _ hne', h2]
        rfl
      obtain ⟨g1, g2, g3⟩ := ih _ _ _ hitem hdev
      refine ⟨?_, ?_, g3⟩
      · rw [show register_callbacks ws (cb :: rest)
            = register_callbacks (ws_add_listener (ws_add_listener ws
                "hub.item.updated" cb) "hub.device.updated" cb) rest from rfl, g1]
        simp
      · rw [show register_callbacks ws (cb :: rest)
            = register_callbacks (ws_add_listener (ws_add_listener ws
                "hub.item.updated" cb) "hub.device.updated" cb) rest from rfl, g2]
        simp

/-- C8: when the session reports connected, `ensure_websocket_connected`
is a no-op; otherwise the old session is discarded and replaced by a
fresh connected one on which every callback of the durable registry is
subscribed, in order, to both update topics — so a push notification with
either topic delivered to the new session invokes exactly the registered
callbacks. -/
theorem ensure_connected_noop_or_resubscribes (s : ApiState) (ws : WsState)
    (cbFails : Nat → Bool) (r : Option Int) :
    (s.websocket = some ws → wsConnected ws = true →
      ensure_websocket_connected s true = Except.ok s) ∧
    ((s.websocket = none ∨ (s.websocket = some ws ∧ wsConnected ws = false)) →
      s.authenticated = true → s.updateCallbacks ≠ [] →
      ∃ ws', ensure_websocket_connected s true
          = Except.ok { s with websocket := some ws' } ∧
        wsConnected ws' = true ∧
        alookup ws'.listeners "hub.item.updated" = some s.updateCallbacks ∧
        alookup ws'.listeners "hub.device.updated" = some s.updateCallbacks ∧
        handle_message cbFails ws' ⟨none, r, some "hub.item.updated"⟩
          = (ws', HandleEffect.invoked "hub.item.updated" s.updateCallbacks
              (s.updateCallbacks.filter cbFails)) ∧
        handle_message cbFails ws' ⟨none, r, some "hub.device.updated"⟩
          = (ws', HandleEffect.invoked "hub.device.updated" s.updateCallbacks
              (s.updateCallbacks.filter cbFails))) := by
  constructor
  · intro h1 h2
    simp [ensure_websocket_connected, h1, h2]
  · intro hdis hauth hcbs
    obtain ⟨c, rest, hc⟩ : ∃ c rest, s.updateCallbacks = c :: rest := by
      cases hcase : s.updateCallbacks with
      | nil => exact absurd hcase hcbs
      | cons c rest => exact ⟨c, rest, rfl⟩
    have hbase1 : alookup (ws_add_listener (ws_add_listener freshWs
        "hub.item.updated" c) "hub.device.updated" c).listeners "hub.item.updated"
        = some [c] := by
      rw [ws_add_listener_lookup_ne _ _ _ _ (by decide), ws_add_listener_lookup_self]
      rfl
    have hbase2 : alookup (ws_add_listener (ws_add_listener freshWs
        "hub.item.updated" c) "hub.device.updated" c).listeners "hub.device.updated"
        = some [c] := by
      rw [ws_add_listener_lookup_self, ws_add_listener_lookup_ne _ _ _ _ (by decide)]
      rfl
    obtain ⟨g1, g2, g3⟩ := register_callbacks_lookup rest _ [c] [c] hbase1 hbase2
    have hreg1 : alookup (register_callbacks freshWs s.updateCallbacks).listeners
        "hub.item.updated" = some s.updateCallbacks := by
      rw [hc]
      rw [show register_callbacks freshWs (c :: rest)
          = register_callbacks (ws_add_listener (ws_add_listener freshWs
              "hub.item.updated" c) "hub.device.updated" c) rest from rfl]
      simpa using g1
    have hreg2 : alookup (register_callbacks freshWs s.updateCallbacks).listeners
        "hub.device.updated" = some s.updateCallbacks := by
      rw [hc]
      rw [show register_callbacks freshWs (c :: rest)
          = register_callbacks (ws_add_listener (ws_add_listener freshWs
              "hub.item.updated" c) "hub.device.updated" c) rest from rfl]
      simpa using g2
    have hconn : wsConnected (register_callbacks freshWs s.updateCallbacks) = true := by
      rw [hc]
      rw [show register_callbacks freshWs (c :: rest)
          = register_callbacks (ws_add_listener (ws_add_listener freshWs
              "hub.item.updated" c) "hub.device.updated" c) rest from rfl]
      rw [g3]
      rfl
    refine ⟨register_callbacks freshWs s.updateCallbacks, ?_, hconn, hreg1, hreg2,
      ?_, ?_⟩
    · rcases hdis with hnone | ⟨hsome, hnc⟩
      · simp [ensure_websocket_connected, hnone, reconnect_websocket, hauth]
      · simp [ensure_websocket_connected, hsome, hnc, reconnect_websocket, hauth]
    · simp [handle_message, truthyKey, handle_notification, hreg1]
    · simp [handle_message, truthyKey, handle_notification, hreg2]

/-- Witness for C8: a not-yet-connected client with one registered
listener reconnects into a session carrying that listener. -/
theorem ensure_connected_noop_or_resubscribes_witness :
    ∃ ws', ensure_websocket_connected ⟨none, [7], true⟩ true
      = Except.ok ⟨some ws', [7], true⟩ := by
  obtain ⟨ws', h1, -, -, -, -, -⟩ :=
    (ensure_connected_noop_or_resubscribes ⟨none, [7], true⟩ freshWs
      (fun _ => false) none).2 (Or.inl rfl) rfl (by decide)
  exact ⟨ws', h1⟩

/-- C6 (code bug, at the failing input): a connected session receives a
`TEXT` frame whose payload is valid JSON but not an object (`"5"`:
`json.loads` succeeds, `data.get("id")` raises `AttributeError`).  The
exception escapes the inner `except json.JSONDecodeError` and the outer
`except Exception` ends the receive loop: the frame behind it is never
processed, the session is left exactly as it was — still reporting
connected — and `ensure_websocket_connected` therefore treats it as
healthy and does not reconnect, contradicting the claim that per-message
handling exceptions never terminate the loop and that a terminated loop
is left not-connected for the next `ensureConnected()` to repair. -/
theorem receive_loop_dies_on_handler_exception :
    receive_messages (fun _ => false) ⟨true, true, [], [], []⟩
        [WsEvent.text (TextPayload.handlerRaises "AttributeError"),
         WsEvent.text (TextPayload.ok ⟨none, none, some "hub.item.updated"⟩)]
      = (⟨true, true, [], [], []⟩, LoopExit.handlerException "AttributeError") ∧
    wsConnected ⟨true, true, [], [], []⟩ = true ∧
    ensure_websocket_connected ⟨some ⟨true, true, [], [], []⟩, [7], true⟩ true
      = Except.ok ⟨some ⟨true, true, [], [], []⟩, [7], true⟩ := by
  refine ⟨rfl, rfl, ?_⟩
  simp [ensure_websocket_connected, wsConnected]

/-! ## The four-step authentication handshake (api.py 303–524) -/

/-- The `BaliAuthData` dataclass (api.py 27–37): the immutable bundle
assigned to `_auth_data` in one step once all four handshake steps have
succeeded. -/
structure BaliAuthData where
  identity_token : String
  identity_signature : String
  session_token : String
  server_account : String
  server_relay : String
  account_id : String
  device_id : String
deriving DecidableEq, Repr

/-- One HTTP request's outcome: a transport error (`aiohttp.ClientError`,
wrapped by `authenticate` as `BaliConnectionError`) or a response with a
status code and an already-parsed typed body. -/
inductive HttpResult (α : Type) where
  | transportError (msg : String) : HttpResult α
  | response (status : Nat) (body : α) : HttpResult α
deriving DecidableEq, Repr

/-- The step-1 identity response body.  `identity` and
`identitySignature` are `none` when the key is missing (the empty string
models a present-but-falsy `Identity`); `serverAccount` is read with
default `""`; `accountFromIdentity` is the `PK_Account` read (default
`""`) from the base64-decoded identity token, `none` modelling a decode
failure, which the blanket handler turns into `BaliAuthError`. -/
structure Step1Body where
  identity : Option String
  identitySignature : Option String
  serverAccount : String
  accountFromIdentity : Option String
deriving DecidableEq, Repr

/-- One entry of the step-3 device listing. -/
structure DeviceEntry where
  pkDevice : Option String
  serverDevice : Option String
deriving DecidableEq, Repr

/-- The step-4 hub-info body: `Server_Relay` read with default `""`. -/
structure Step4Body where
  serverRelay : String
deriving DecidableEq, Repr

/-- The environment's answers to the four HTTP requests of
`authenticate`. -/
structure AuthEnv where
  step1 : HttpResult Step1Body
  step2 : HttpResult String
  step3 : HttpResult (List DeviceEntry)
  step4 : HttpResult Step4Body
deriving DecidableEq, Repr

/-- Outcome of `authenticate`: `BaliAuthError`, `BaliConnectionError`, or
success — the only case carrying an `AuthBundle`. -/
inductive AuthOutcome where
  | authError (msg : String) : AuthOutcome
  | connError (msg : String) : AuthOutcome
  | success (bundle : BaliAuthData) : AuthOutcome
deriving DecidableEq, Repr

/-- Gateway selection (api.py 420–457): the device whose `PK_Device`
equals the supplied gateway id, else the first listed device. -/
def selectGateway (devices : List DeviceEntry) (gatewayId : Option String) :
    Option DeviceEntry :=
  match gatewayId with
  | some g => devices.find? (fun d => d.pkDevice == some g)
  | none => devices.head?

/-- `BaliAPI.authenticate` (api.py 303–524), strictly sequential: each
step runs only if the prior succeeded; a non-200 status, falsy
`Identity`, missing `IdentitySignature`, identity-decode failure, absent
gateway or falsy `Server_Relay` raises `BaliAuthError`, a transport error
raises `BaliConnectionError`, and only the final line builds the bundle. -/
def authenticate (env : AuthEnv) (gatewayId : Option String) : AuthOutcome :=
  match env.step1 with
  | HttpResult.transportError e => AuthOutcome.connError ("Connection error: " ++ e)
  | HttpResult.response st b =>
      if st = 200 then
        match b.identity with
        | none => AuthOutcome.authError "Invalid authentication response"
        | some idTok =>
            if idTok = "" then AuthOutcome.authError "Invalid authentication response"
            else
              match b.identitySignature with
              | none => AuthOutcome.authError "Invalid API response: KeyError"
              | some idSig =>
                  match b.accountFromIdentity with
                  | none => AuthOutcome.authError "Unexpected authentication error"
                  | some accountId =>
                      match env.step2 with
                      | HttpResult.transportError e =>
                          AuthOutcome.connError ("Connection error: " ++ e)
                      | HttpResult.response st2 sessionTok =>
                          if st2 = 200 then
                            match env.step3 with
                            | HttpResult.transportError e =>
                                AuthOutcome.connError ("Connection error: " ++ e)
                            | HttpResult.response st3 devices =>
                                if st3 = 200 then
                                  match selectGateway devices gatewayId with
                                  | none => AuthOutcome.authError "No gateway device found"
                                  | some dev =>
                                      match env.step4 with
                                      | HttpResult.transportError e =>
                                          AuthOutcome.connError ("Connection error: " ++ e)
                                      | HttpResult.response st4 hub =>
                                          if st4 = 200 then
                                            if hub.serverRelay = "" then
                                              AuthOutcome.authError
                                                "No WebSocket Server_Relay found"
                                            else
                                              AuthOutcome.success
                                                ⟨idTok, idSig, sessionTok,
                                                 b.serverAccount, hub.serverRelay,
                                                 accountId, dev.pkDevice.getD ""⟩
                                          else AuthOutcome.authError "Failed to get hub info"
                                else AuthOutcome.authError "Failed to get devices"
                          else AuthOutcome.authError "Failed to get session token"
      else AuthOutcome.authError ("Authentication failed: " ++ toString st)

/-- C5: an identity response missing (or with a falsy) `Identity` ends in
`BaliAuthError` with no bundle; a successful outcome is possible only
when all four steps succeeded (status 200, truthy identity, present
signature, decodable identity token, gateway found, truthy relay); and
when they all succeed the bundle is built, in one step, from exactly the
four steps' data.  The outcome type carries a bundle only in the success
case, so no failure path can leave a partial bundle. -/
theorem authenticate_all_steps_or_no_bundle (env : AuthEnv) (gatewayId : Option String) :
    (∀ st b, env.step1 = HttpResult.response st b → st = 200 →
      (b.identity = none ∨ b.identity = some "") →
      authenticate env gatewayId = AuthOutcome.authError "Invalid authentication response") ∧
    (∀ bundle, authenticate env gatewayId = AuthOutcome.success bundle →
      (∃ b, env.step1 = HttpResult.response 200 b ∧
        (∃ idTok, b.identity = some idTok ∧ idTok ≠ "") ∧
        b.identitySignature ≠ none ∧ b.accountFromIdentity ≠ none) ∧
      (∃ tok, env.step2 = HttpResult.response 200 tok) ∧
      (∃ devs, env.step3 = HttpResult.response 200 devs ∧
        selectGateway devs gatewayId ≠ none) ∧
      (∃ hub, env.step4 = HttpResult.response 200 hub ∧ hub.serverRelay ≠ "")) ∧
    (∀ b idTok idSig accountId tok devs dev hub,
      env.step1 = HttpResult.response 200 b → b.identity = some idTok → idTok ≠ "" →
      b.identitySignature = some idSig → b.accountFromIdentity = some accountId →
      env.step2 = HttpResult.response 200 tok →
      env.step3 = HttpResult.response 200 devs →
      selectGateway devs gatewayId = some dev →
      env.step4 = HttpResult.response 200 hub → hub.serverRelay ≠ "" →
      authenticate env gatewayId = AuthOutcome.success
        ⟨idTok, idSig, tok, b.serverAccount, hub.serverRelay, accountId,
         dev.pkDevice.getD ""⟩) := by
  refine ⟨?_, ?_, ?_⟩
  · intro st b h1 h200 hid
    subst h200
    rcases hid with hid | hid <;> simp [authenticate, h1, hid]
  · intro bundle h
    cases hs1 : env.step1 with
    | transportError e =>
        rw [authenticate, hs1] at h
        exact AuthOutcome.noConfusion h
    | response st b =>
        rw [authenticate, hs1] at h
        dsimp only at h
        by_cases h200 : st = 200
        case neg =>
          rw [if_neg h200] at h
          exact AuthOutcome.noConfusion h
        subst h200
        rw [if_pos rfl] at h
        cases hid : b.identity with
        | none =>
            rw [hid] at h
            exact AuthOutcome.noConfusion h
        | some idTok =>
        rw [hid] at h
        dsimp only at h
        by_cases hemp : idTok = ""
        case pos =>
          rw [if_pos hemp] at h
          exact AuthOutcome.noConfusion h
        rw [if_neg hemp] at h
        cases hsig : b.identitySignature with
        | none =>
            rw [hsig] at h
            exact AuthOutcome.noConfusion h
        | some idSig =>
        rw [hsig] at h
        dsimp only at h
        cases hacc : b.accountFromIdentity with
        | none =>
            rw [hacc] at h
            exact AuthOutcome.noConfusion h
        | some accountId =>
        rw [hacc] at h
        dsimp only at h
        cases hs2 : env.step2 with
        | transportError e =>
            rw [hs2] at h
            exact AuthOutcome.noConfusion h
        | response st2 tok =>
        rw [hs2] at h
        dsimp only at h
        by_cases h2 : st2 = 200
        case neg =>
          rw [if_neg h2] at h
          exact AuthOutcome.noConfusion h
        subst h2
        rw [if_pos rfl] at h
        cases hs3 : env.step3 with
        | transportError e =>
            rw [hs3] at h
            exact AuthOutcome.noConfusion h
        | response st3 devs =>
        rw [hs3] at h
        dsimp only at h
        by_cases h3 : st3 = 200
        case neg =>
          rw [if_neg h3] at h
          exact AuthOutcome.noConfusion h
        subst h3
        rw [if_pos rfl] at h
        cases hsel : selectGateway devs gatewayId with
        | none =>
            rw [hsel] at h
            exact AuthOutcome.noConfusion h
        | some dev =>
        rw [hsel] at h
        dsimp only at h
        cases hs4 : env.step4 with
        | transportError e =>
            rw [hs4] at h
            exact AuthOutcome.noConfusion h
        | response st4 hub =>
        rw [hs4] at h
        dsimp only at h
        by_cases h4 : st4 = 200
        case neg =>
          rw [if_neg h4] at h
          exact AuthOutcome.noConfusion h
        subst h4
        rw [if_pos rfl] at h
        by_cases hrel : hub.serverRelay = ""
        case pos =>
          rw [if_pos hrel] at h
          exact AuthOutcome.noConfusion h
        refine ⟨⟨b, rfl, ⟨idTok, hid, hemp⟩, by rw [hsig]; simp, by rw [hacc]; simp⟩,
          ⟨tok, rfl⟩, ⟨devs, rfl, by rw [hsel]; simp⟩, ⟨hub, rfl, hrel⟩⟩
  · intro b idTok idSig accountId tok devs dev hub h1 hid hemp hsig hacc h2 h3 hsel h4 hrel
    simp [authenticate, h1, hid, hemp, hsig, hacc, h2, h3, hsel, h4, hrel]

/-- A step-1 response missing the `Identity` field. -/
def envMissingIdentity : AuthEnv :=
  ⟨HttpResult.response 200 ⟨none, some "sig", "acct.host", some "A1"⟩,
   HttpResult.response 200 "tok",
   HttpResult.response 200 [⟨some "G1", some "dev.host"⟩],
   HttpResult.response 200 ⟨"relay.host"⟩⟩

/-- Witness for C5: the missing-`Identity` environment fails with
`BaliAuthError` and yields no bundle. -/
theorem authenticate_all_steps_or_no_bundle_witness :
    authenticate envMissingIdentity none
      = AuthOutcome.authError "Invalid authentication response" :=
  (authenticate_all_steps_or_no_bundle envMissingIdentity none).1
    200 ⟨none, some "sig", "acct.host", some "A1"⟩ rfl rfl (Or.inl rfl)

end BaliBlinds
